import Mathlib

/-!
# Verification of the merchant-activity ingestion and analytics pipeline

Shallow embedding of the dreamdevs NestJS service: CSV row validation
(`ValidationService.validate`), the streaming importer with conflict-ignoring
batched persistence (`IngestionService.importFile` / `importAll`), the retry
wrapper (`IngestionService.withRetry`), and the analytics precomputation and
cache (`AnalyticsService`).

Numeric modelling: JS numbers and SQL numerics are modelled as `ℚ`; the
claims at stake concern exact decimal values (comma stripping, clamping,
rounding to 1 or 2 decimal digits), not float64 rounding.  Non-finite JS
values (`Infinity`, `NaN`) are outside the model: the `decimal(18,2)` store
column cannot hold them, and `NaN` is represented by `Option.none`.

The repository ships two variants of `IngestionService` (a simple early one
and the full one with validation, retry, index management and bounded file
concurrency) as well as two variants of `ValidationService` (one with key
normalisation and comma stripping, one without).  The full importer is
embedded as `importAll` / `importFile`; the early variant, the only one
implementing the §4.5 restart shortcut, as `importAllV1` / `parseRow`.
The `ValidationService` embedded as `validate` is the normalising,
comma-stripping variant, the one exercised by `validation.service.spec.ts`.
-/

/-! ## Constants (src/common/constants.ts) -/

/-- Rows per batch for bulk DB inserts (`BATCH_SIZE`). -/
def BATCH_SIZE : Nat := 5000

/-- Max concurrent file imports (`CONCURRENT_FILE_IMPORTS`). -/
def CONCURRENT_FILE_IMPORTS : Nat := 2

/-- Max DB write retry attempts on transient errors (`MAX_RETRIES`). -/
def MAX_RETRIES : Nat := 3

/-- Base delay (ms) between retries, multiplied by attempt number
(`RETRY_DELAY_MS`). -/
def RETRY_DELAY_MS : Nat := 500

/-- Expected data year (`DATA_YEAR`); timestamps outside it are flagged. -/
def DATA_YEAR : Int := 2024

/-- Allowed product values (`VALID_PRODUCTS`). -/
def VALID_PRODUCTS : List String :=
  ["POS", "AIRTIME", "BILLS", "CARD_PAYMENT", "SAVINGS", "MONIEBOOK", "KYC"]

/-- Allowed status values (`VALID_STATUSES`). -/
def VALID_STATUSES : List String := ["SUCCESS", "FAILED", "PENDING"]

/-- Allowed channel values (`VALID_CHANNELS`). -/
def VALID_CHANNELS : List String := ["POS", "APP", "USSD", "WEB", "OFFLINE"]

/-- Allowed merchant tier values (`VALID_TIERS`). -/
def VALID_TIERS : List String := ["STARTER", "VERIFIED", "PREMIUM"]

/-! ## String and number primitives -/

/-- Whitespace skipped by JS `parseFloat` before the numeric literal
(ASCII subset; the dataset contains no exotic whitespace). -/
def jsWhitespace (c : Char) : Bool :=
  c = ' ' || c = '\t' || c = '\n' || c = '\r' || c = '\x0b' || c = '\x0c'

/-- A character JS `String.prototype.trim` removes: WhiteSpace (including
NBSP and the BOM/ZWNBSP) and line terminators (ASCII-relevant subset). -/
def jsTrimmable (c : Char) : Bool :=
  jsWhitespace c || c = '\u00A0' || c = '\uFEFF'

/-- JS `s.trim()`: strip trimmable characters from both ends. -/
def jsTrim (s : String) : String :=
  String.mk (((s.toList.dropWhile jsTrimmable).reverse.dropWhile jsTrimmable).reverse)

/-- JS `s.toLowerCase()` (ASCII range; the recognised column names and enum
values are ASCII). -/
def jsToLower (s : String) : String :=
  String.mk (s.toList.map Char.toLower)

/-- `String.prototype.split` on a one-character separator. -/
def splitChar (sep : Char) : List Char → List (List Char)
  | [] => [[]]
  | c :: rest =>
    match splitChar sep rest with
    | [] => [[]]
    | g :: gs => if c = sep then [] :: g :: gs else (c :: g) :: gs

/-- Hex digit, case-insensitive, as in the `[0-9a-f]` (with `i` flag)
character class of `UUID_REGEX`. -/
def isHexChar (c : Char) : Bool :=
  c.isDigit || ('a' ≤ c && c ≤ 'f') || ('A' ≤ c && c ≤ 'F')

/-- `UUID_REGEX.test s`: 8-4-4-4-12 hex groups, case-insensitive, anchored. -/
def UUID_REGEX_test (s : String) : Bool :=
  let parts := splitChar '-' s.toList
  parts.length = 5 &&
    (List.zip parts [8, 4, 4, 4, 12]).all
      (fun pn => pn.1.length = pn.2 && pn.1.all isHexChar)

/-- `MERCHANT_ID_REGEX.test s`: `^MRC-\d{6}$`. -/
def MERCHANT_ID_REGEX_test (s : String) : Bool :=
  match s.toList with
  | 'M' :: 'R' :: 'C' :: '-' :: ds => ds.length = 6 && ds.all Char.isDigit
  | _ => false

/-- Decimal digit run interpreted as a natural number. -/
def digitsToNat (ds : List Char) : Nat :=
  ds.foldl (fun a c => 10 * a + (c.toNat - '0'.toNat)) 0

/-- Optional leading sign of a JS numeric literal. -/
def parseSign : List Char → Int × List Char
  | '-' :: rest => (-1, rest)
  | '+' :: rest => (1, rest)
  | cs => (1, cs)

/-- Longest leading digit run and the remainder. -/
def splitDigits (cs : List Char) : List Char × List Char :=
  (cs.takeWhile Char.isDigit, cs.dropWhile Char.isDigit)

/-- Exponent part of a JS numeric literal: `e`/`E`, optional sign, digits.
A malformed exponent (no digits) is not consumed, as in `parseFloat("1e")`. -/
def parseExponent (cs : List Char) : Int :=
  match cs with
  | c :: rest =>
    if c = 'e' || c = 'E' then
      let sr := parseSign rest
      let ds := splitDigits sr.2
      if ds.1.isEmpty then 0 else sr.1 * (digitsToNat ds.1 : Int)
    else 0
  | [] => 0

/-- JS `parseFloat`: skip leading whitespace, then parse the longest prefix
of the form `[+-]? digits [. digits] [e[+-]digits]` (or `.digits …`),
ignoring any trailing junk.  `none` models `NaN` (no digit found).
`Infinity` is not modelled (it cannot reach the `decimal(18,2)` column). -/
def parseFloat (s : String) : Option ℚ :=
  let cs := (s.toList).dropWhile jsWhitespace
  let sc := parseSign cs
  let ip := splitDigits sc.2
  let fr := match ip.2 with
    | '.' :: rest => splitDigits rest
    | _ => ([], ip.2)
  if ip.1.isEmpty && fr.1.isEmpty then none
  else
    let e := parseExponent fr.2
    let base : ℚ := (digitsToNat ip.1 : ℚ) + (digitsToNat fr.1 : ℚ) / (10 : ℚ) ^ fr.1.length
    some ((sc.1 : ℚ) * base * (10 : ℚ) ^ e)

/-- `amount.replace(/,/g, '')`: remove every comma. -/
def stripCommas (s : String) : String :=
  String.mk (s.toList.filter (fun c => c ≠ ','))

/-- `k.replace(/^BOM/, '')` (BOM = U+FEFF): strip one leading byte-order mark. -/
def stripLeadingBOM (s : String) : String :=
  match s.toList with
  | c :: rest => if c = '\uFEFF' then String.mk rest else s
  | [] => s

/-- Column-name normalisation: `k.trim().toLowerCase().replace(/^﻿/, '')`. -/
def normaliseKey (k : String) : String :=
  stripLeadingBOM (jsToLower (jsTrim k))

/-- A raw CSV row as handed over by `csv-parse` with `columns: true`:
an object, i.e. an association where a later key overwrites an earlier one. -/
abbrev RawRow := List (String × String)

/-- JS object assignment `m[k] = v`: replace the binding if the key exists,
append it otherwise. -/
def setField (m : RawRow) (k v : String) : RawRow :=
  if m.any (fun p => p.1 = k) then m.map (fun p => if p.1 = k then (k, v) else p)
  else m ++ [(k, v)]

/-- The `normalised` object built by `validate`: every key of the raw record
normalised, later keys overwriting earlier ones. -/
def normaliseRecord (record : RawRow) : RawRow :=
  record.foldl (fun acc kv => setField acc (normaliseKey kv.1) kv.2) []

/-- JS property read `m.k`: `none` models `undefined`. -/
def getField (m : RawRow) (k : String) : Option String :=
  (m.find? (fun p => p.1 = k)).map (fun p => p.2)

/-- JS falsiness of a destructured string field: `undefined` or `""`. -/
def strFalsy : Option String → Bool
  | none => true
  | some s => s = ""

/-- `x?.trim() || null`: `none` for `undefined` and for a blank string,
the trimmed string otherwise. -/
def optTrim : Option String → Option String
  | none => none
  | some s => let t := jsTrim s; if t = "" then none else some t

/-- `x || null` without trimming (early importer variant). -/
def orNull : Option String → Option String
  | none => none
  | some s => if s = "" then none else some s

/-- Models `new Date(s)` for the ISO-8601 shapes occurring in this dataset
(`YYYY-MM-DD` optionally followed by `THH:MM:SS`, fractional seconds and
`Z`): returns the UTC year when the string parses, `none` for an invalid
date.  Calendar subtleties (leap days) are not modelled; no claim depends
on them. -/
def jsDateParse (s : String) : Option Int :=
  let cs := s.toList
  match cs with
  | y1 :: y2 :: y3 :: y4 :: '-' :: m1 :: m2 :: '-' :: d1 :: d2 :: rest =>
    if [y1, y2, y3, y4, m1, m2, d1, d2].all Char.isDigit &&
        1 ≤ digitsToNat [m1, m2] && digitsToNat [m1, m2] ≤ 12 &&
        1 ≤ digitsToNat [d1, d2] && digitsToNat [d1, d2] ≤ 31 &&
        (rest.isEmpty || rest.head? = some 'T') then
      some (digitsToNat [y1, y2, y3, y4] : Int)
    else none
  | _ => none

/-! ## Data model (`ActivityEntity`, `activities` table) -/

/-- One persisted activity record (entity `activities`).
`event_timestamp` keeps the accepted ISO text of the stored instant
(the `timestamp` column); `none` models SQL `NULL`. -/
structure ActivityEntity where
  event_id : String
  merchant_id : String
  event_timestamp : Option String
  product : String
  event_type : String
  amount : ℚ
  status : String
  channel : Option String
  region : Option String
  merchant_tier : Option String
deriving DecidableEq, Repr

/-- The `activities` store: its rows in insertion order.  The primary key
constraint on `event_id` is maintained by `insertOrIgnore`. -/
abbrev Store := List ActivityEntity

/-- The primary-key column of the store. -/
def storeKeys (s : Store) : List String := s.map (fun r => r.event_id)

/-! ## ValidationService (src/ingestion/validation.service.ts) -/

/-- Process-lifetime validation counters (`ValidationStats`). -/
structure ValidationStats where
  total : Nat
  missingFields : Nat
  invalidUUID : Nat
  invalidMerchantId : Nat
  invalidProduct : Nat
  invalidStatus : Nat
  invalidChannel : Nat
  invalidTier : Nat
  negativeAmount : Nat
  suspiciousDate : Nat
deriving DecidableEq, Repr

/-- All counters start at zero. -/
def initStats : ValidationStats :=
  { total := 0, missingFields := 0, invalidUUID := 0, invalidMerchantId := 0
    invalidProduct := 0, invalidStatus := 0, invalidChannel := 0, invalidTier := 0
    negativeAmount := 0, suspiciousDate := 0 }

/-- The merchant-id format warning block of `validate`: count a pattern
mismatch, accept the row regardless. -/
def warnMerchantId (stats : ValidationStats) (merchant_id : String) : ValidationStats :=
  if !MERCHANT_ID_REGEX_test merchant_id then
    { stats with invalidMerchantId := stats.invalidMerchantId + 1 }
  else stats

/-- The channel warning block of `validate`: count an unknown non-empty
channel, accept the row regardless. -/
def warnChannel (stats : ValidationStats) (safeChannel : Option String) : ValidationStats :=
  match safeChannel with
  | some c => if !VALID_CHANNELS.contains c then
      { stats with invalidChannel := stats.invalidChannel + 1 } else stats
  | none => stats

/-- The merchant-tier warning block of `validate`. -/
def warnTier (stats : ValidationStats) (safeTier : Option String) : ValidationStats :=
  match safeTier with
  | some t => if !VALID_TIERS.contains t then
      { stats with invalidTier := stats.invalidTier + 1 } else stats
  | none => stats

/-- The amount warning block of `validate`: `if (parsedAmount < 0)` — false
for `NaN` — bump `negativeAmount`. -/
def warnAmount (stats : ValidationStats) (parsedAmount : Option ℚ) : ValidationStats :=
  match parsedAmount with
  | some a => if a < 0 then
      { stats with negativeAmount := stats.negativeAmount + 1 } else stats
  | none => stats

/-- The timestamp block of `validate`: parse when non-blank, store `null`
on failure, flag a parsed year outside `DATA_YEAR`.  Returns the stored
timestamp and the updated stats. -/
def parseTimestampStep (stats : ValidationStats) (event_timestamp : Option String) :
    Option String × ValidationStats :=
  match optTrim event_timestamp with
  | none => (none, stats)
  | some t =>
    match jsDateParse t with
    | none => (none, stats)
    | some year =>
      (some t, if year ≠ DATA_YEAR then
        { stats with suspiciousDate := stats.suspiciousDate + 1 } else stats)

/-- `ValidationService.validate(record, rowNumber)`: validates and sanitises
one raw CSV row.  Returns the clean entity (`some`) or the skip signal
(`none`), together with the updated counters (the TS method mutates
`this.stats`; the embedding threads the stats explicitly, with each
warning block of the source split into its own step function above). -/
def validate (stats : ValidationStats) (record : RawRow) (rowNumber : Nat) :
    Option ActivityEntity × ValidationStats :=
  let _ := rowNumber
  let stats := { stats with total := stats.total + 1 }
  let n := normaliseRecord record
  let event_id := getField n "event_id"
  let merchant_id := getField n "merchant_id"
  let event_timestamp := getField n "event_timestamp"
  let product := getField n "product"
  let event_type := getField n "event_type"
  let amount := getField n "amount"
  let status := getField n "status"
  let channel := getField n "channel"
  let region := getField n "region"
  let merchant_tier := getField n "merchant_tier"
  if strFalsy event_id || strFalsy merchant_id || strFalsy product ||
      strFalsy event_type || strFalsy status then
    (none, { stats with missingFields := stats.missingFields + 1 })
  else
    let event_id := event_id.getD ""
    let merchant_id := merchant_id.getD ""
    let product := product.getD ""
    let event_type := event_type.getD ""
    let status := status.getD ""
    if !UUID_REGEX_test event_id then
      (none, { stats with invalidUUID := stats.invalidUUID + 1 })
    else if !VALID_PRODUCTS.contains product then
      (none, { stats with invalidProduct := stats.invalidProduct + 1 })
    else if !VALID_STATUSES.contains status then
      (none, { stats with invalidStatus := stats.invalidStatus + 1 })
    else
      let stats := warnMerchantId stats merchant_id
      let safeChannel := optTrim channel
      let stats := warnChannel stats safeChannel
      let safeTier := optTrim merchant_tier
      let stats := warnTier stats safeTier
      let parsedAmount := parseFloat (stripCommas (amount.getD ""))
      let safeAmount := parsedAmount.getD 0
      let stats := warnAmount stats parsedAmount
      let ts := parseTimestampStep stats event_timestamp
      (some {
        event_id := event_id
        merchant_id := merchant_id
        event_timestamp := ts.1
        product := product
        event_type := event_type
        amount := max 0 safeAmount
        status := status
        channel := match safeChannel with
          | some c => if VALID_CHANNELS.contains c then some c else none
          | none => none
        region := optTrim region
        merchant_tier := match safeTier with
          | some t => if VALID_TIERS.contains t then some t else none
          | none => none }, ts.2)

/-! ## Idempotent bulk write (`.insert().values(batch).orIgnore()`) -/

/-- One row of a bulk insert under `ON CONFLICT DO NOTHING`: a row whose
primary key already exists in the store is silently ignored, otherwise it
is appended. -/
def insertOrIgnoreOne (s : Store) (r : ActivityEntity) : Store :=
  if (storeKeys s).contains r.event_id then s else s ++ [r]

/-- A whole batch flushed by
`createQueryBuilder().insert().into(ActivityEntity).values(batch).orIgnore().execute()`:
rows are applied in order, each under conflict-ignore semantics. -/
def insertOrIgnore (s : Store) (batch : List ActivityEntity) : Store :=
  batch.foldl insertOrIgnoreOne s

/-! ## Analytics data model (src/analytics/analytics.types.ts) -/

/-- `TopMerchantResult`. -/
structure TopMerchantResult where
  merchant_id : String
  total_volume : ℚ
deriving DecidableEq, Repr

/-- `MonthlyActiveMerchantsResult`: `YYYY-MM` to distinct-merchant count,
in the insertion order of the JS object. -/
abbrev MonthlyActiveMerchantsResult := List (String × Nat)

/-- `ProductAdoptionResult`: product to distinct-merchant count, insertion
order descending by count. -/
abbrev ProductAdoptionResult := List (String × Nat)

/-- `KycFunnelResult`. -/
structure KycFunnelResult where
  documents_submitted : Nat
  verifications_completed : Nat
  tier_upgrades : Nat
deriving DecidableEq, Repr

/-- `FailureRateEntry`. -/
structure FailureRateEntry where
  product : String
  failure_rate : ℚ
deriving DecidableEq, Repr

/-- The in-memory `AnalyticsCache` as actually built by `precompute`:
`this.cache = { ...(this.cache ?? {}), slot: value }` spreads a *partial*
object, so each slot may be absent (`undefined`).  The outer `Option`
of `topMerchant` is that absence; its inner `Option` is the query's
`TopMerchantResult | null`. -/
structure AnalyticsCache where
  topMerchant : Option (Option TopMerchantResult)
  monthlyActiveMerchants : Option MonthlyActiveMerchantsResult
  productAdoption : Option ProductAdoptionResult
  kycFunnel : Option KycFunnelResult
  failureRates : Option (List FailureRateEntry)
deriving DecidableEq, Repr

/-- The `{}` that `this.cache ?? {}` spreads on the first write. -/
def emptyCache : AnalyticsCache :=
  { topMerchant := none, monthlyActiveMerchants := none, productAdoption := none
    kycFunnel := none, failureRates := none }

/-- The mutable fields of `AnalyticsService`. -/
structure AnalyticsState where
  cache : Option AnalyticsCache
  precomputeAttempts : Nat
  isReady : Bool
deriving DecidableEq, Repr

/-- Field initialisers of `AnalyticsService`: `cache = null`,
`precomputeAttempts = 0`, `isReady = false`. -/
def initAnalytics : AnalyticsState :=
  { cache := none, precomputeAttempts := 0, isReady := false }

/-- The settled outcomes of the five concurrent projection tasks of one
`precompute` pass (`Promise.allSettled`): `Except.ok` is a fulfilled task,
`Except.error` a rejected one carrying its reason's message. -/
structure PrecomputeOutcomes where
  topMerchant : Except String (Option TopMerchantResult)
  monthlyActiveMerchants : Except String MonthlyActiveMerchantsResult
  productAdoption : Except String ProductAdoptionResult
  kycFunnel : Except String KycFunnelResult
  failureRates : Except String (List FailureRateEntry)

/-- `AnalyticsService.precompute()` after its five tasks settled with
outcomes `o`: each fulfilled task replaces exactly its own cache slot
(`this.cache = { ...(this.cache ?? {}), slot: value }`), a rejected task is
only logged, and `isReady` is set true unconditionally at the end.
Timing/logging (`timed`, heap reporting) has no observable state effect. -/
def precompute (o : PrecomputeOutcomes) (s : AnalyticsState) : AnalyticsState :=
  let s := { s with precomputeAttempts := s.precomputeAttempts + 1 }
  let s := match o.topMerchant with
    | .ok v => { s with cache := some { s.cache.getD emptyCache with topMerchant := some v } }
    | .error _ => s
  let s := match o.monthlyActiveMerchants with
    | .ok v => { s with cache := some { s.cache.getD emptyCache with monthlyActiveMerchants := some v } }
    | .error _ => s
  let s := match o.productAdoption with
    | .ok v => { s with cache := some { s.cache.getD emptyCache with productAdoption := some v } }
    | .error _ => s
  let s := match o.kycFunnel with
    | .ok v => { s with cache := some { s.cache.getD emptyCache with kycFunnel := some v } }
    | .error _ => s
  let s := match o.failureRates with
    | .ok v => { s with cache := some { s.cache.getD emptyCache with failureRates := some v } }
    | .error _ => s
  { s with isReady := true }

/-- `getTopMerchant()`: `this.cache?.topMerchant ?? null` (`??` collapses
both a null cache and an absent slot to `null`). -/
def getTopMerchant (s : AnalyticsState) : Option TopMerchantResult :=
  ((s.cache.bind (fun c => c.topMerchant)).getD none)

/-- `getMonthlyActiveMerchants()`: `this.cache?.monthlyActiveMerchants ?? {}`. -/
def getMonthlyActiveMerchants (s : AnalyticsState) : MonthlyActiveMerchantsResult :=
  (s.cache.bind (fun c => c.monthlyActiveMerchants)).getD []

/-- `getProductAdoption()`: `this.cache?.productAdoption ?? {}`. -/
def getProductAdoption (s : AnalyticsState) : ProductAdoptionResult :=
  (s.cache.bind (fun c => c.productAdoption)).getD []

/-- `getKycFunnel()`: `this.cache?.kycFunnel ?? { documents_submitted: 0,
verifications_completed: 0, tier_upgrades: 0 }`. -/
def getKycFunnel (s : AnalyticsState) : KycFunnelResult :=
  (s.cache.bind (fun c => c.kycFunnel)).getD
    { documents_submitted := 0, verifications_completed := 0, tier_upgrades := 0 }

/-- `getFailureRates()`: `this.cache?.failureRates ?? []`. -/
def getFailureRates (s : AnalyticsState) : List FailureRateEntry :=
  (s.cache.bind (fun c => c.failureRates)).getD []

/-! ## The five aggregation queries (src/analytics/analytics.service.ts) -/

/-- Postgres `numeric` rounding: round half away from zero to an integer. -/
def roundHalfAwayZ (x : ℚ) : ℤ :=
  if x < 0 then -(⌊-x + 1 / 2⌋) else ⌊x + 1 / 2⌋

/-- SQL `ROUND(x::numeric, d)`: round half away from zero at `d` decimal
digits. -/
def roundTo (d : Nat) (x : ℚ) : ℚ :=
  (roundHalfAwayZ (x * 10 ^ d) : ℚ) / 10 ^ d

/-- Sum of `amount` over the rows of merchant `m` with `status = 'SUCCESS'`
(the per-group `SUM(amount)` of the top-merchant query). -/
def successVolume (store : Store) (m : String) : ℚ :=
  ((store.filter (fun r => r.status = "SUCCESS")).filter
    (fun r => r.merchant_id = m)).foldl (fun a r => a + r.amount) 0

/-- `queryTopMerchant()`:
`SELECT merchant_id, ROUND(SUM(amount)::numeric, 2) AS total_volume FROM
activities WHERE status = 'SUCCESS' GROUP BY merchant_id ORDER BY
total_volume DESC, merchant_id ASC LIMIT 1`.  The GROUP BY key set is the
distinct merchants of the filtered rows; `ORDER BY` refers to the output
column, i.e. the rounded total.  `topMerchantLE` is the `ORDER BY
total_volume DESC, merchant_id ASC` comparator, `queryTopMerchant` the
query itself. -/
def topMerchantLE (a b : String × ℚ) : Bool :=
  decide (b.2 < a.2 ∨ (a.2 = b.2 ∧ a.1 ≤ b.1))

def queryTopMerchant (store : Store) : Option TopMerchantResult :=
  let success := store.filter (fun r => r.status = "SUCCESS")
  let merchants := (success.map (fun r => r.merchant_id)).dedup
  let grouped := merchants.map (fun m => (m, roundTo 2 (successVolume store m)))
  match List.mergeSort grouped topMerchantLE with
  | [] => none
  | mv :: _ => some { merchant_id := mv.1, total_volume := mv.2 }

/-- `queryMonthlyActiveMerchants()`: rows with `status = 'SUCCESS'` and a
non-null timestamp, grouped by `TO_CHAR(event_timestamp, 'YYYY-MM')` (the
first 7 characters of the stored ISO text), counting distinct merchants,
ordered by month ascending. -/
def queryMonthlyActiveMerchants (store : Store) : MonthlyActiveMerchantsResult :=
  let rows := store.filter (fun r => r.status = "SUCCESS" && r.event_timestamp.isSome)
  let months := List.mergeSort ((rows.map (fun r => (r.event_timestamp.getD "").take 7)).dedup)
    (fun a b => decide (a ≤ b))
  months.map (fun mo =>
    (mo, ((rows.filter (fun r => (r.event_timestamp.getD "").take 7 = mo)).map
      (fun r => r.merchant_id)).dedup.length))

/-- `queryProductAdoption()`: distinct merchants per product over all
statuses, ordered by count descending. -/
def queryProductAdoption (store : Store) : ProductAdoptionResult :=
  let products := (store.map (fun r => r.product)).dedup
  let entries := products.map (fun p =>
    (p, ((store.filter (fun r => r.product = p)).map (fun r => r.merchant_id)).dedup.length))
  List.mergeSort entries (fun a b => decide (b.2 ≤ a.2))

/-- Distinct merchants for one KYC funnel stage:
`product = 'KYC' AND status = 'SUCCESS'` grouped by `event_type`. -/
def kycStageCount (store : Store) (et : String) : Nat :=
  (((store.filter (fun r => r.product = "KYC" && r.status = "SUCCESS" &&
    r.event_type = et)).map (fun r => r.merchant_id)).dedup).length

/-- `queryKycFunnel()`: the three fixed stages, absent stages defaulting
to 0. -/
def queryKycFunnel (store : Store) : KycFunnelResult :=
  { documents_submitted := kycStageCount store "DOCUMENT_SUBMITTED"
    verifications_completed := kycStageCount store "VERIFICATION_COMPLETED"
    tier_upgrades := kycStageCount store "TIER_UPGRADE" }

/-- `queryFailureRates()`:
`SELECT product, ROUND(failed * 100.0 / NULLIF(success_or_failed, 0), 1) AS
failure_rate FROM activities WHERE status IN ('SUCCESS','FAILED') GROUP BY
product ORDER BY failure_rate DESC`.  Every group has at least one row, so
the `NULLIF` guard never fires.  `failureRateEntry` is one output row of
the grouped select, `failureRateLE` the `ORDER BY failure_rate DESC`
comparator. -/
def failureRateEntry (rows : Store) (p : String) : FailureRateEntry :=
  { product := p
    failure_rate := roundTo 1
      (((rows.filter (fun r => r.product = p && r.status = "FAILED")).length : ℚ) * 100 /
        ((rows.filter (fun r => r.product = p)).length : ℚ)) }

def failureRateLE (a b : FailureRateEntry) : Bool :=
  decide (b.failure_rate ≤ a.failure_rate)

def queryFailureRates (store : Store) : List FailureRateEntry :=
  let rows := store.filter (fun r => r.status = "SUCCESS" || r.status = "FAILED")
  let products := (rows.map (fun r => r.product)).dedup
  List.mergeSort (products.map (failureRateEntry rows)) failureRateLE

/-- A `precompute()` pass in which all five queries run successfully
against `store` — the pass `importAll` triggers in an error-free run. -/
def precomputeFromStore (store : Store) (s : AnalyticsState) : AnalyticsState :=
  precompute
    { topMerchant := .ok (queryTopMerchant store)
      monthlyActiveMerchants := .ok (queryMonthlyActiveMerchants store)
      productAdoption := .ok (queryProductAdoption store)
      kycFunnel := .ok (queryKycFunnel store)
      failureRates := .ok (queryFailureRates store) } s

/-! ## StreamingImporter (src/ingestion/ingestion.service.ts, full variant) -/

/-- The environment an import run observes: directory existence, directory
listing, per-file byte size and per-file parsed CSV rows. -/
structure Env where
  dirExists : Bool
  dirListing : List String
  fileSize : String → Nat
  fileRows : String → List RawRow

/-- The mutable fields of `IngestionService` plus the record store and the
analytics service it drives. -/
structure SystemState where
  store : Store
  stats : ValidationStats
  totalImported : Nat
  totalSkipped : Nat
  isComplete : Bool
  analytics : AnalyticsState

/-- `/^activities_\d{8}\.csv$/.test f`. -/
def isActivityCsvName (f : String) : Bool :=
  let cs := f.toList
  cs.length = 23 && cs.take 11 = "activities_".toList && cs.drop 19 = ".csv".toList &&
    ((cs.drop 11).take 8).all Char.isDigit

/-- The per-file importer state: counters, the current chunk, and the store
and validation stats it writes through to. -/
structure ImportFileState where
  imported : Nat
  skipped : Nat
  rowNumber : Nat
  chunk : List ActivityEntity
  store : Store
  stats : ValidationStats

/-- `flush`: an empty chunk is a no-op; otherwise the chunk is spliced out,
bulk-written with conflict-ignore semantics, and `imported` grows by the
batch length (the count of rows *sent*, whether or not a duplicate key made
the store ignore them).  The `withRetry` wrapper around the write is
modelled separately (`withRetry`); here the write is the run in which some
attempt succeeded. -/
def flushChunk (st : ImportFileState) : ImportFileState :=
  if st.chunk.isEmpty then st
  else
    { st with chunk := []
              store := insertOrIgnore st.store st.chunk
              imported := st.imported + st.chunk.length }

/-- One iteration of `for await (const record of parser)`: count the row,
validate it, either count a skip or push the clean row onto the chunk, and
flush once the chunk reaches `BATCH_SIZE`. -/
def importFileStep (st : ImportFileState) (record : RawRow) : ImportFileState :=
  let st := { st with rowNumber := st.rowNumber + 1 }
  match validate st.stats record st.rowNumber with
  | (none, stats) => { st with skipped := st.skipped + 1, stats := stats }
  | (some row, stats) =>
    let st := { st with chunk := st.chunk ++ [row], stats := stats }
    if BATCH_SIZE ≤ st.chunk.length then flushChunk st else st

/-- `IngestionService.importFile` (full variant): stream the file's rows,
validate each, batch and flush, with a final flush after the stream ends. -/
def importFile (store : Store) (stats : ValidationStats) (rows : List RawRow) :
    ImportFileState :=
  flushChunk (rows.foldl importFileStep
    { imported := 0, skipped := 0, rowNumber := 0, chunk := [], store := store, stats := stats })

/-- The accumulation step of `importAll`'s file loop: run `importFile` on
one file and fold its results into the shared totals (the code joins each
`Promise.all` batch of `CONCURRENT_FILE_IMPORTS` files and accumulates
per file; the embedding serialises the bounded concurrency in file order,
which is the only observable order of the accumulation loop). -/
def importAllFileStep (env : Env) (s : SystemState) (f : String) : SystemState :=
  let r := importFile s.store s.stats (env.fileRows f)
  { s with store := r.store
           stats := r.stats
           totalImported := s.totalImported + r.imported
           totalSkipped := s.totalSkipped + r.skipped }

/-- `IngestionService.importAll` (full variant, the one with validation,
retry, index management and bounded file concurrency): missing data
directory or no matching file → warn, mark complete, return *without*
precomputing; otherwise drop indexes (DDL only — row set unchanged, not
modelled on the store), skip empty files, import the rest, rebuild indexes
(DDL only), set `totalImported` from a fresh store count, mark complete and
trigger `precompute`. -/
def importAll (env : Env) (s : SystemState) : SystemState :=
  if !env.dirExists then { s with isComplete := true }
  else
    let files := List.mergeSort (env.dirListing.filter isActivityCsvName)
      (fun a b => decide (a ≤ b))
    if files.length = 0 then { s with isComplete := true }
    else
      let nonEmptyFiles := files.filter (fun f => env.fileSize f ≠ 0)
      let s := nonEmptyFiles.foldl (importAllFileStep env) s
      let s := { s with totalImported := s.store.length }
      let s := { s with isComplete := true }
      { s with analytics := precomputeFromStore s.store s.analytics }

/-! ## Early importer variant (same file, first document): `parseRow`,
`CHUNK_SIZE = 1000`, and the §4.5 restart shortcut in its `importAll`. -/

/-- `CHUNK_SIZE` of the early importer variant. -/
def CHUNK_SIZE : Nat := 1000

/-- `IngestionService.parseRow` (early variant): required-field and UUID
checks only; timestamp `null` on parse failure; `parseFloat(amount)` with
no comma stripping and no clamping; `channel || null` etc. without
trimming; no counters. -/
def parseRow (record : RawRow) : Option ActivityEntity :=
  let event_id := getField record "event_id"
  let merchant_id := getField record "merchant_id"
  let event_timestamp := getField record "event_timestamp"
  let product := getField record "product"
  let event_type := getField record "event_type"
  let amount := getField record "amount"
  let status := getField record "status"
  let channel := getField record "channel"
  let region := getField record "region"
  let merchant_tier := getField record "merchant_tier"
  if strFalsy event_id || strFalsy merchant_id || strFalsy product ||
      strFalsy event_type || strFalsy status then none
  else if !UUID_REGEX_test (event_id.getD "") then none
  else
    let parsedTimestamp := match event_timestamp with
      | some t => if jsTrim t ≠ "" then
          (match jsDateParse t with | some _ => some t | none => none)
        else none
      | none => none
    some {
      event_id := event_id.getD ""
      merchant_id := merchant_id.getD ""
      event_timestamp := parsedTimestamp
      product := product.getD ""
      event_type := event_type.getD ""
      amount := (parseFloat (amount.getD "")).getD 0
      status := status.getD ""
      channel := orNull channel
      region := orNull region
      merchant_tier := orNull merchant_tier }

/-- Per-file state of the early importer (no validation stats). -/
structure ImportFileV1State where
  imported : Nat
  skipped : Nat
  chunk : List ActivityEntity
  store : Store

/-- The early variant's `flush`. -/
def flushChunkV1 (st : ImportFileV1State) : ImportFileV1State :=
  if st.chunk.isEmpty then st
  else
    { st with chunk := []
              store := insertOrIgnore st.store st.chunk
              imported := st.imported + st.chunk.length }

/-- One parsed record in the early variant's `readable` loop. -/
def importFileV1Step (st : ImportFileV1State) (record : RawRow) : ImportFileV1State :=
  match parseRow record with
  | none => { st with skipped := st.skipped + 1 }
  | some row =>
    let st := { st with chunk := st.chunk ++ [row] }
    if CHUNK_SIZE ≤ st.chunk.length then flushChunkV1 st else st

/-- `IngestionService.importFile` (early variant). -/
def importFileV1 (store : Store) (rows : List RawRow) : ImportFileV1State :=
  flushChunkV1 (rows.foldl importFileV1Step
    { imported := 0, skipped := 0, chunk := [], store := store })

/-- `IngestionService.importAll` (early variant, the one carrying the §4.5
restart shortcut): missing directory or no matching file → mark complete
and return without precomputing; a non-empty store → adopt its count as
`totalImported`, mark complete, and go straight to `precompute`; otherwise
each file is imported sequentially, counters accumulate, the run is marked
complete and `precompute` runs. -/
def importAllV1 (env : Env) (s : SystemState) : SystemState :=
  if !env.dirExists then { s with isComplete := true }
  else
    let files := List.mergeSort (env.dirListing.filter isActivityCsvName)
      (fun a b => decide (a ≤ b))
    if files.length = 0 then { s with isComplete := true }
    else
      let existingCount := s.store.length
      if 0 < existingCount then
        let s := { s with totalImported := existingCount, isComplete := true }
        { s with analytics := precomputeFromStore s.store s.analytics }
      else
        let s := files.foldl (fun (acc : SystemState) f =>
          let r := importFileV1 acc.store (env.fileRows f)
          { acc with store := r.store
                     totalImported := acc.totalImported + r.imported
                     totalSkipped := acc.totalSkipped + r.skipped }) s
        let s := { s with isComplete := true }
        { s with analytics := precomputeFromStore s.store s.analytics }

/-! ## Retry policy (`IngestionService.withRetry`) -/

/-- The loop body of `withRetry`, recursing on the number of loop
iterations left.  `attempts n` is the outcome of the `n`-th (1-based)
invocation of the wrapped operation; the returned list is the sequence of
delays (ms) slept between attempts. -/
def withRetryAux (attempts : Nat → Except String α) (retries : Nat) :
    Nat → Nat → String → Except String α × List Nat
  | 0, _, lastError => (.error lastError, [])
  | remaining + 1, attempt, _ =>
    match attempts attempt with
    | .ok v => (.ok v, [])
    | .error e =>
      if attempt < retries then
        let delay := RETRY_DELAY_MS * attempt
        let rec' := withRetryAux attempts retries remaining (attempt + 1) e
        (rec'.1, delay :: rec'.2)
      else (.error e, [])

/-- `IngestionService.withRetry(operation, retries)`: run the operation for
`attempt = 1..retries`, return the first success, sleep
`RETRY_DELAY_MS * attempt` after a failed non-final attempt, and rethrow
the last error once every attempt failed (`'Unknown error'` only when
`retries = 0` and the loop never runs). -/
def withRetry (attempts : Nat → Except String α) (retries : Nat) :
    Except String α × List Nat :=
  withRetryAux attempts retries retries 1 "Unknown error"

/-- A system state as built at process start: empty store, zero counters,
the import not complete, analytics cache empty and not ready. -/
def initSystem : SystemState :=
  { store := [], stats := initStats, totalImported := 0, totalSkipped := 0
    isComplete := false, analytics := initAnalytics }

/-- A well-formed sample record used by concrete witnesses (the row of
end-to-end scenario A of the spec). -/
def sampleRecord : ActivityEntity :=
  { event_id := "a1b2c3d4-e5f6-7890-abcd-ef1234567890"
    merchant_id := "MRC-123456"
    event_timestamp := some "2024-03-15T10:30:00Z"
    product := "POS"
    event_type := "CARD_TRANSACTION"
    amount := 1500
    status := "SUCCESS"
    channel := some "APP"
    region := some "LAGOS"
    merchant_tier := some "VERIFIED" }

/-- Per-product `SUCCESS` row count (the claim-side reading of the
failure-rate denominator's first term). -/
def successCount (store : Store) (p : String) : Nat :=
  (store.filter (fun r => r.product = p && r.status = "SUCCESS")).length

/-- Per-product `FAILED` row count (the failure-rate numerator). -/
def failedCount (store : Store) (p : String) : Nat :=
  (store.filter (fun r => r.product = p && r.status = "FAILED")).length

/-- An amount expressible in whole cents — the invariant the store's
`decimal(18,2)` amount column enforces on every persisted row. -/
def CentQuantized (x : ℚ) : Prop := ∃ n : ℤ, x = (n : ℚ) / 100

/-- Environment of a run whose data directory does not exist. -/
def cexEnvNoDir : Env :=
  { dirExists := false, dirListing := [], fileSize := fun _ => 0, fileRows := fun _ => [] }

/-- Environment with one well-named, non-empty data file that yields no
rows. -/
def witEnvOneFile : Env :=
  { dirExists := true, dirListing := ["activities_20240101.csv"]
    fileSize := fun _ => 1, fileRows := fun _ => [] }

/-- A system state whose record store is already populated at run start. -/
def cexStatePopulated : SystemState :=
  { initSystem with store := [sampleRecord] }

/-- A second sample row: same product, different primary key, `FAILED`. -/
def failedSample : ActivityEntity :=
  { sampleRecord with event_id := "b1b2c3d4-e5f6-7890-abcd-ef1234567890"
                      status := "FAILED", amount := 200 }

/-- A raw CSV row with a comma-separated negative amount (exercises comma
stripping, clamping and the `negativeAmount` counter). -/
def rawNegRow : RawRow :=
  [("event_id", "a1b2c3d4-e5f6-7890-abcd-ef1234567890"), ("merchant_id", "MRC-123456"),
   ("event_timestamp", "2024-03-15T10:30:00Z"), ("product", "POS"),
   ("event_type", "CARD_TRANSACTION"), ("amount", "-1,250.00"), ("status", "SUCCESS"),
   ("channel", "APP"), ("region", "LAGOS"), ("merchant_tier", "VERIFIED")]

/-- The record `validate` produces for `rawNegRow`: amount clamped to 0. -/
def negRec : ActivityEntity := { sampleRecord with amount := 0 }

/-- The stats `validate` produces for `rawNegRow` from `initStats`. -/
def negStats : ValidationStats := { initStats with total := 1, negativeAmount := 1 }

/-! ## Helper lemmas: conflict-ignoring writes -/

theorem storeKeys_append (s t : Store) :
    storeKeys (s ++ t) = storeKeys s ++ storeKeys t :=
  List.map_append _ s t

theorem insertOrIgnoreOne_of_mem {s : Store} {r : ActivityEntity}
    (h : r.event_id ∈ storeKeys s) : insertOrIgnoreOne s r = s := by
  simp [insertOrIgnoreOne, h]

theorem insertOrIgnoreOne_of_not_mem {s : Store} {r : ActivityEntity}
    (h : r.event_id ∉ storeKeys s) : insertOrIgnoreOne s r = s ++ [r] := by
  simp [insertOrIgnoreOne, h]

theorem storeKeys_nodup_insertOrIgnoreOne {s : Store} (r : ActivityEntity)
    (h : (storeKeys s).Nodup) : (storeKeys (insertOrIgnoreOne s r)).Nodup := by
  by_cases hm : r.event_id ∈ storeKeys s
  · rw [insertOrIgnoreOne_of_mem hm]; exact h
  · rw [insertOrIgnoreOne_of_not_mem hm, storeKeys_append]
    simp only [List.nodup_append, storeKeys, List.map]
    refine ⟨h, by simp, ?_⟩
    intro x hx he
    rw [List.mem_singleton] at he
    exact hm (he ▸ hx)

theorem storeKeys_nodup_insertOrIgnore {s : Store} (b : List ActivityEntity)
    (h : (storeKeys s).Nodup) : (storeKeys (insertOrIgnore s b)).Nodup := by
  induction b generalizing s with
  | nil => exact h
  | cons r b ih => exact ih (storeKeys_nodup_insertOrIgnoreOne r h)

theorem mem_storeKeys_insertOrIgnoreOne {s : Store} {k : String} (r : ActivityEntity)
    (h : k ∈ storeKeys s) : k ∈ storeKeys (insertOrIgnoreOne s r) := by
  by_cases hm : r.event_id ∈ storeKeys s
  · rwa [insertOrIgnoreOne_of_mem hm]
  · rw [insertOrIgnoreOne_of_not_mem hm, storeKeys_append]
    exact List.mem_append_left _ h

theorem mem_storeKeys_insertOrIgnore {s : Store} {k : String} (b : List ActivityEntity)
    (h : k ∈ storeKeys s) : k ∈ storeKeys (insertOrIgnore s b) := by
  induction b generalizing s with
  | nil => exact h
  | cons r b ih => exact ih (mem_storeKeys_insertOrIgnoreOne r h)

theorem self_mem_storeKeys_insertOrIgnoreOne (s : Store) (r : ActivityEntity) :
    r.event_id ∈ storeKeys (insertOrIgnoreOne s r) := by
  by_cases hm : r.event_id ∈ storeKeys s
  · rwa [insertOrIgnoreOne_of_mem hm]
  · rw [insertOrIgnoreOne_of_not_mem hm, storeKeys_append]
    simp [storeKeys]

theorem batch_mem_storeKeys_insertOrIgnore (s : Store) (b : List ActivityEntity) :
    ∀ r ∈ b, r.event_id ∈ storeKeys (insertOrIgnore s b) := by
  induction b generalizing s with
  | nil => intro r hr; cases hr
  | cons x b ih =>
    intro r hr
    rcases hr with _ | hr
    · exact mem_storeKeys_insertOrIgnore b (self_mem_storeKeys_insertOrIgnoreOne s x)
    · exact ih (insertOrIgnoreOne s x) r (by assumption)

theorem insertOrIgnore_prefix (b : List ActivityEntity) (s : Store) :
    ∃ t, insertOrIgnore s b = s ++ t := by
  induction b generalizing s with
  | nil => exact ⟨[], by simp [insertOrIgnore]⟩
  | cons r b ih =>
    by_cases hm : r.event_id ∈ storeKeys s
    · obtain ⟨t, ht⟩ := ih s
      refine ⟨t, ?_⟩
      show insertOrIgnore (insertOrIgnoreOne s r) b = s ++ t
      rw [insertOrIgnoreOne_of_mem hm]; exact ht
    · obtain ⟨t, ht⟩ := ih (s ++ [r])
      refine ⟨[r] ++ t, ?_⟩
      show insertOrIgnore (insertOrIgnoreOne s r) b = s ++ ([r] ++ t)
      rw [insertOrIgnoreOne_of_not_mem hm, ← List.append_assoc]; exact ht

theorem insertOrIgnore_of_all_mem {s : Store} {b : List ActivityEntity}
    (h : ∀ r ∈ b, r.event_id ∈ storeKeys s) : insertOrIgnore s b = s := by
  induction b generalizing s with
  | nil => rfl
  | cons r b ih =>
    show insertOrIgnore (insertOrIgnoreOne s r) b = s
    rw [insertOrIgnoreOne_of_mem (h r (by simp))]
    exact ih fun x hx => h x (by simp [hx])

/-- Claim C4: across any sequence of batch flushes the store never holds two
records with the same `event_id`; a flushed row whose key already exists is
silently ignored (existing rows are preserved verbatim — the store only ever
grows by appending genuinely new rows), a batch consisting entirely of
already-present keys leaves the store unchanged, and repeating a flush with
the same rows is a no-op. -/
theorem flush_orIgnore_unique_keys (s : Store) (b : List ActivityEntity)
    (batches : List (List ActivityEntity)) (hs : (storeKeys s).Nodup) :
    (storeKeys (batches.foldl insertOrIgnore s)).Nodup ∧
    (∃ t, insertOrIgnore s b = s ++ t) ∧
    ((∀ r ∈ b, r.event_id ∈ storeKeys s) → insertOrIgnore s b = s) ∧
    insertOrIgnore (insertOrIgnore s b) b = insertOrIgnore s b := by
  have h1 : ∀ (bs : List (List ActivityEntity)) (st : Store), (storeKeys st).Nodup →
      (storeKeys (bs.foldl insertOrIgnore st)).Nodup := by
    intro bs
    induction bs with
    | nil => intro st h; exact h
    | cons c cs ih => intro st h; exact ih _ (storeKeys_nodup_insertOrIgnore c h)
  exact ⟨h1 batches s hs, insertOrIgnore_prefix b s,
    fun h => insertOrIgnore_of_all_mem h,
    insertOrIgnore_of_all_mem (batch_mem_storeKeys_insertOrIgnore s b)⟩

/-- Concrete instance of `flush_orIgnore_unique_keys`: flushing the same row
three times over two runs leaves a single copy, with unique keys. -/
theorem flush_orIgnore_unique_keys_witness :
    (storeKeys ([[sampleRecord], [failedSample], [sampleRecord]].foldl insertOrIgnore [])).Nodup ∧
    insertOrIgnore [sampleRecord] [sampleRecord] = [sampleRecord] := by
  have h1 := flush_orIgnore_unique_keys [] [sampleRecord]
    [[sampleRecord], [failedSample], [sampleRecord]] (by decide)
  have h2 := flush_orIgnore_unique_keys [sampleRecord] [sampleRecord] [] (by decide)
  exact ⟨h1.1, h2.2.2.1 (by decide)⟩

/-- `precompute` always finishes with `isReady = true`. -/
theorem precompute_isReady (o : PrecomputeOutcomes) (s : AnalyticsState) :
    (precompute o s).isReady = true := rfl

/-- `precompute` increments `precomputeAttempts` by exactly one. -/
theorem precompute_precomputeAttempts (o : PrecomputeOutcomes) (s : AnalyticsState) :
    (precompute o s).precomputeAttempts = s.precomputeAttempts + 1 := by
  obtain ⟨t, m, p, k, f⟩ := o
  cases t <;> cases m <;> cases p <;> cases k <;> cases f <;> rfl

/-- Any run of `precompute` passes leaves `isReady` true once one pass has
happened. -/
theorem precompute_foldl_ready (os : List PrecomputeOutcomes) (st : AnalyticsState)
    (h : st.isReady = true) :
    (os.foldl (fun a o => precompute o a) st).isReady = true := by
  induction os generalizing st with
  | nil => exact h
  | cons o os ih => exact ih _ (precompute_isReady o _)

/-- Claim C2: after every `precompute` call, once all five projection tasks
settled, `isReady` is true however many tasks failed; a failed task leaves
its own slot (as observed through the read accessors) at its previous
value, a fulfilled task replaces exactly its own slot; and `isReady` stays
true through every further `precompute` pass — the only code that writes
it — so it never reverts within the process lifetime. -/
theorem precompute_partial_cache (o : PrecomputeOutcomes) (s : AnalyticsState)
    (os : List PrecomputeOutcomes) :
    (precompute o s).isReady = true ∧
    getTopMerchant (precompute o s) =
      (match o.topMerchant with | .ok v => v | .error _ => getTopMerchant s) ∧
    getMonthlyActiveMerchants (precompute o s) =
      (match o.monthlyActiveMerchants with
        | .ok v => v | .error _ => getMonthlyActiveMerchants s) ∧
    getProductAdoption (precompute o s) =
      (match o.productAdoption with | .ok v => v | .error _ => getProductAdoption s) ∧
    getKycFunnel (precompute o s) =
      (match o.kycFunnel with | .ok v => v | .error _ => getKycFunnel s) ∧
    getFailureRates (precompute o s) =
      (match o.failureRates with | .ok v => v | .error _ => getFailureRates s) ∧
    (os.foldl (fun st o2 => precompute o2 st) (precompute o s)).isReady = true := by
  obtain ⟨t, m, p, k, f⟩ := o
  obtain ⟨c, att, rdy⟩ := s
  cases c <;> cases t <;> cases m <;> cases p <;> cases k <;> cases f <;>
    exact ⟨rfl, rfl, rfl, rfl, rfl, rfl, precompute_foldl_ready os _ rfl⟩

/-- Claim C10: with a null cache every read accessor returns its fixed
default, and the freshly constructed service is not ready. -/
theorem cache_null_defaults (s : AnalyticsState) (h : s.cache = none) :
    getTopMerchant s = none ∧
    getMonthlyActiveMerchants s = [] ∧
    getProductAdoption s = [] ∧
    getKycFunnel s =
      { documents_submitted := 0, verifications_completed := 0, tier_upgrades := 0 } ∧
    getFailureRates s = [] ∧
    initAnalytics.isReady = false ∧ initAnalytics.cache = none := by
  simp [getTopMerchant, getMonthlyActiveMerchants, getProductAdoption, getKycFunnel,
    getFailureRates, h, initAnalytics]

/-- Concrete instance of `cache_null_defaults` at the initial state. -/
theorem cache_null_defaults_witness :
    getTopMerchant initAnalytics = none ∧
    getMonthlyActiveMerchants initAnalytics = [] ∧
    getProductAdoption initAnalytics = [] ∧
    getKycFunnel initAnalytics =
      { documents_submitted := 0, verifications_completed := 0, tier_upgrades := 0 } ∧
    getFailureRates initAnalytics = [] ∧
    initAnalytics.isReady = false ∧ initAnalytics.cache = none :=
  cache_null_defaults initAnalytics rfl

/-- Claim C9: with `MAX_RETRIES = 3`, `withRetry` returns the outcome of the
first successful attempt among attempts 1..3 — so the wrapped operation
runs at most three times — sleeping `RETRY_DELAY_MS * n` after each failed
attempt `n < 3`, and propagates the error of attempt 3 when all three
attempts fail. -/
theorem withRetry_spec {α : Type} (attempts : Nat → Except String α) :
    withRetry attempts MAX_RETRIES =
      (match attempts 1 with
      | .ok v => (.ok v, [])
      | .error _ =>
        match attempts 2 with
        | .ok v => (.ok v, [RETRY_DELAY_MS * 1])
        | .error _ =>
          match attempts 3 with
          | .ok v => (.ok v, [RETRY_DELAY_MS * 1, RETRY_DELAY_MS * 2])
          | .error e => (.error e, [RETRY_DELAY_MS * 1, RETRY_DELAY_MS * 2])) := by
  show withRetryAux attempts 3 (2 + 1) 1 "Unknown error" = _
  cases h1 : attempts 1 <;> cases h2 : attempts 2 <;> cases h3 : attempts 3 <;>
    simp [withRetryAux, h1, h2, h3, RETRY_DELAY_MS]

/-- The ingestion file loop never touches the analytics service. -/
theorem importAll_foldl_analytics (env : Env) (fs : List String) (s : SystemState) :
    (fs.foldl (importAllFileStep env) s).analytics = s.analytics := by
  induction fs generalizing s with
  | nil => rfl
  | cons f fs ih => exact (ih (importAllFileStep env s f)).trans rfl

/-- Claim C3 (corrected): `importAll` (full variant) always completes with
`isComplete = true`, but `precompute` is invoked exactly once only when the
data directory exists and at least one `activities_YYYYMMDD.csv` file is
found; on the two early-return paths (missing directory, no matching file)
the run completes without invoking `precompute` at all. -/
theorem importAll_precompute_once (env : Env) (s : SystemState) :
    (importAll env s).isComplete = true ∧
    (importAll env s).analytics.precomputeAttempts =
      (if env.dirExists = true ∧ env.dirListing.filter isActivityCsvName ≠ []
        then s.analytics.precomputeAttempts + 1
        else s.analytics.precomputeAttempts) := by
  unfold importAll
  cases hd : env.dirExists with
  | false => simp [hd]
  | true =>
    have hperm := List.mergeSort_perm (env.dirListing.filter isActivityCsvName)
      (fun a b => decide (a ≤ b))
    by_cases hf : env.dirListing.filter isActivityCsvName = []
    · have hlen : (List.mergeSort (env.dirListing.filter isActivityCsvName)
          (fun a b => decide (a ≤ b))).length = 0 := by
        rw [hperm.length_eq, hf]; rfl
      simp [hd, hf, hlen]
    · have hlen : ¬((List.mergeSort (env.dirListing.filter isActivityCsvName)
          (fun a b => decide (a ≤ b))).length = 0) := by
        rw [hperm.length_eq]
        simpa [List.length_eq_zero] using hf
      simp only [hd, Bool.not_true, Bool.false_eq_true, if_false, hlen, if_true, hf,
        ne_eq, not_false_eq_true, and_self]
      refine ⟨trivial, ?_⟩
      show (precomputeFromStore _ _).precomputeAttempts = _
      unfold precomputeFromStore
      rw [precompute_precomputeAttempts]
      congr 1
      exact congrArg AnalyticsState.precomputeAttempts (importAll_foldl_analytics env _ s)

/-- Counterexample to claim C3 as stated: with a populated-or-empty store
and a missing data directory, `importAll` completes without a fatal error
(`isComplete` is set) yet `precompute` is never invoked. -/
theorem importAll_precompute_once_cex :
    (importAll cexEnvNoDir initSystem).isComplete = true ∧
    (importAll cexEnvNoDir initSystem).analytics.precomputeAttempts = 0 :=
  ⟨rfl, rfl⟩

/-- Claim C1 (corrected): provided the data directory exists and at least
one matching CSV file is found, a store already containing rows at run
start makes `importAll` (the variant carrying the §4.5 restart shortcut)
skip the entire ingestion phase — the store is returned untouched, so its
row count cannot increase — adopt the existing row count as
`totalImported`, mark the run complete, and invoke `precompute` exactly
once. -/
theorem importAllV1_restart_shortcut (env : Env) (s : SystemState)
    (hdir : env.dirExists = true)
    (hfiles : env.dirListing.filter isActivityCsvName ≠ [])
    (hstore : s.store ≠ []) :
    (importAllV1 env s).store = s.store ∧
    (importAllV1 env s).totalImported = s.store.length ∧
    (importAllV1 env s).isComplete = true ∧
    (importAllV1 env s).analytics.precomputeAttempts =
      s.analytics.precomputeAttempts + 1 := by
  unfold importAllV1
  have hperm := List.mergeSort_perm (env.dirListing.filter isActivityCsvName)
    (fun a b => decide (a ≤ b))
  have hlen : ¬((List.mergeSort (env.dirListing.filter isActivityCsvName)
      (fun a b => decide (a ≤ b))).length = 0) := by
    rw [hperm.length_eq]
    simpa [List.length_eq_zero] using hfiles
  have hpos : 0 < s.store.length := List.length_pos.mpr hstore
  simp only [hdir, Bool.not_true, Bool.false_eq_true, if_false, hlen, hpos, if_true]
  refine ⟨trivial, trivial, trivial, ?_⟩
  show (precomputeFromStore _ _).precomputeAttempts = _
  unfold precomputeFromStore
  rw [precompute_precomputeAttempts]

/-- Counterexample to claim C1 as stated: the store already contains a row
when the run starts, ingestion is indeed skipped and the row count does not
increase — but with a missing data directory the run returns *without*
invoking the analytics precomputation, contradicting "proceeds directly to
invoking the analytics precomputation". -/
theorem importAllV1_restart_shortcut_cex :
    cexStatePopulated.store ≠ [] ∧
    (importAllV1 cexEnvNoDir cexStatePopulated).store = cexStatePopulated.store ∧
    (importAllV1 cexEnvNoDir cexStatePopulated).isComplete = true ∧
    (importAllV1 cexEnvNoDir cexStatePopulated).analytics.precomputeAttempts = 0 :=
  ⟨List.cons_ne_nil _ _, rfl, rfl, rfl⟩

/-- Concrete instance of `importAllV1_restart_shortcut`: one matching file,
a one-row store, precompute runs exactly once and the store is untouched. -/
theorem importAllV1_restart_shortcut_witness :
    (importAllV1 witEnvOneFile cexStatePopulated).store = cexStatePopulated.store ∧
    (importAllV1 witEnvOneFile cexStatePopulated).analytics.precomputeAttempts = 1 := by
  have h := importAllV1_restart_shortcut witEnvOneFile cexStatePopulated rfl
    (by decide) (List.cons_ne_nil _ _)
  exact ⟨h.1, by simpa using h.2.2.2⟩

/-- Claim C8: a raw row in which any of the five required fields is missing
or empty makes `validate` return the skip signal, increment `missingFields`
by exactly 1 (besides the unconditional `total` roll-up, which is not a
rejection counter) and touch no other counter; and the importer's row step
then only counts a skip — the chunk and the store are untouched, so the row
is never persisted. -/
theorem validate_missing_fields (stats : ValidationStats) (record : RawRow)
    (rowNumber : Nat)
    (h : (strFalsy (getField (normaliseRecord record) "event_id") ||
          strFalsy (getField (normaliseRecord record) "merchant_id") ||
          strFalsy (getField (normaliseRecord record) "product") ||
          strFalsy (getField (normaliseRecord record) "event_type") ||
          strFalsy (getField (normaliseRecord record) "status")) = true) :
    validate stats record rowNumber =
      (none, { stats with total := stats.total + 1
                          missingFields := stats.missingFields + 1 }) ∧
    ∀ st : ImportFileState,
      (importFileStep st record).store = st.store ∧
      (importFileStep st record).chunk = st.chunk ∧
      (importFileStep st record).skipped = st.skipped + 1 ∧
      (importFileStep st record).imported = st.imported := by
  have hv : ∀ (stats0 : ValidationStats) (n : Nat), validate stats0 record n =
      (none, { stats0 with total := stats0.total + 1
                           missingFields := stats0.missingFields + 1 }) := by
    intro stats0 n
    unfold validate
    simp only [h, if_true]
  refine ⟨hv stats rowNumber, ?_⟩
  intro st
  simp [importFileStep, hv]

/-- Concrete instance of `validate_missing_fields`: a row carrying only a
merchant id is skipped with `missingFields = 1` and nothing else. -/
theorem validate_missing_fields_witness :
    validate initStats [("merchant_id", "MRC-123456")] 1 =
      (none, { initStats with total := 1, missingFields := 1 }) :=
  (validate_missing_fields initStats [("merchant_id", "MRC-123456")] 1 (by decide)).1

/-- The merchant-id warning never touches `negativeAmount`. -/
theorem warnMerchantId_negativeAmount (stats : ValidationStats) (m : String) :
    (warnMerchantId stats m).negativeAmount = stats.negativeAmount := by
  unfold warnMerchantId; split <;> rfl

/-- The channel warning never touches `negativeAmount`. -/
theorem warnChannel_negativeAmount (stats : ValidationStats) (sc : Option String) :
    (warnChannel stats sc).negativeAmount = stats.negativeAmount := by
  unfold warnChannel; split
  · split <;> rfl
  · rfl

/-- The tier warning never touches `negativeAmount`. -/
theorem warnTier_negativeAmount (stats : ValidationStats) (st : Option String) :
    (warnTier stats st).negativeAmount = stats.negativeAmount := by
  unfold warnTier; split
  · split <;> rfl
  · rfl

/-- The amount block bumps `negativeAmount` exactly when the parsed amount
is negative (`NaN`, modelled `none`, counts as not negative). -/
theorem warnAmount_negativeAmount (stats : ValidationStats) (pa : Option ℚ) :
    (warnAmount stats pa).negativeAmount =
      stats.negativeAmount + (if pa.getD 0 < 0 then 1 else 0) := by
  unfold warnAmount
  cases pa with
  | none => simp
  | some a =>
    by_cases ha : a < 0 <;> simp [ha]

/-- The timestamp block never touches `negativeAmount`. -/
theorem parseTimestampStep_negativeAmount (stats : ValidationStats) (e : Option String) :
    (parseTimestampStep stats e).2.negativeAmount = stats.negativeAmount := by
  unfold parseTimestampStep
  split
  · rfl
  · split
    · rfl
    · split <;> rfl

/-- Claim C7: for every raw row `validate` accepts, the stored amount is the
comma-stripped field parsed as a decimal, clamped below at 0 (so always
non-negative), an unparsable amount is stored as 0, and a negative parsed
amount increments `negativeAmount` by exactly 1 (a non-negative or
unparsable one leaves it unchanged). -/
theorem validate_amount_clamp (stats : ValidationStats) (record : RawRow)
    (rowNumber : Nat) (rec : ActivityEntity) (stats' : ValidationStats)
    (h : validate stats record rowNumber = (some rec, stats')) :
    rec.amount = max 0 ((parseFloat (stripCommas
      ((getField (normaliseRecord record) "amount").getD ""))).getD 0) ∧
    0 ≤ rec.amount ∧
    stats'.negativeAmount = stats.negativeAmount +
      (if (parseFloat (stripCommas
          ((getField (normaliseRecord record) "amount").getD ""))).getD 0 < 0
        then 1 else 0) := by
  simp only [validate] at h
  repeat' split at h
  all_goals first
    | (injection h with h1 h2; exact Option.noConfusion h1)
    | (injection h with h1 h2; injection h1 with h3; subst h3; subst h2;
       refine ⟨rfl, le_max_left 0 _, ?_⟩
       simp [parseTimestampStep_negativeAmount, warnAmount_negativeAmount,
         warnTier_negativeAmount, warnChannel_negativeAmount,
         warnMerchantId_negativeAmount])

/-- Concrete instance of `validate_amount_clamp`: amount `"-1,250.00"` is
comma-stripped, parsed to −1250, clamped to 0 (hence non-negative) and
counted once in `negativeAmount`. -/
theorem validate_amount_clamp_witness :
    validate initStats rawNegRow 1 = (some negRec, negStats) ∧
    negRec.amount = 0 ∧ 0 ≤ negRec.amount ∧
    negStats.negativeAmount = initStats.negativeAmount + 1 := by
  have hv : validate initStats rawNegRow 1 = (some negRec, negStats) := by
    with_unfolding_all decide
  have h := validate_amount_clamp initStats rawNegRow 1 negRec negStats hv
  refine ⟨hv, ?_, h.2.1, ?_⟩
  · rw [h.1]; with_unfolding_all decide
  · rw [h.2.2]; with_unfolding_all decide

/-! ## Helper lemmas: failure rates -/

/-- Filtering the SUCCESS/FAILED rows down to one product's FAILED rows is
the same as filtering the whole store. -/
theorem filter_sf_failed (store : Store) (p : String) :
    (store.filter (fun r => r.status = "SUCCESS" || r.status = "FAILED")).filter
      (fun r => r.product = p && r.status = "FAILED") =
    store.filter (fun r => r.product = p && r.status = "FAILED") := by
  rw [List.filter_filter]
  apply List.filter_congr
  intro r _
  by_cases hf : r.status = "FAILED" <;> by_cases hp : r.product = p <;> simp [hf, hp]

/-- One product's SUCCESS/FAILED row count splits into the SUCCESS count
plus the FAILED count. -/
theorem sf_filter_product_length (store : Store) (p : String) :
    ((store.filter (fun r => r.status = "SUCCESS" || r.status = "FAILED")).filter
      (fun r => r.product = p)).length = successCount store p + failedCount store p := by
  rw [List.filter_filter]
  unfold successCount failedCount
  induction store with
  | nil => rfl
  | cons r t ih =>
    by_cases hs : r.status = "SUCCESS"
    · have hf : ¬r.status = "FAILED" := by rw [hs]; decide
      by_cases hp : r.product = p <;> simp [List.filter, hp, hs, hf, ih] <;> omega
    · by_cases hf : r.status = "FAILED" <;> by_cases hp : r.product = p <;>
        simp [List.filter, hp, hs, hf, ih] <;> omega


/-- `failureRateLE` read back as a proposition. -/
theorem failureRateLE_iff (a b : FailureRateEntry) :
    failureRateLE a b = true ↔ b.failure_rate ≤ a.failure_rate := by
  simp [failureRateLE]

/-- Claim C5: `queryFailureRates` (the projection `getFailureRates` serves
once computed) returns one entry per product having at least one SUCCESS or
FAILED row — a product with none is omitted, so the division never sees a
zero denominator — whose value is FAILED / (SUCCESS + FAILED) × 100 rounded
to 1 decimal with PENDING rows excluded from both terms, and the list is
sorted by failure rate descending. -/
theorem queryFailureRates_spec (store : Store) :
    List.Pairwise (fun a b => b.failure_rate ≤ a.failure_rate) (queryFailureRates store) ∧
    ((queryFailureRates store).map (fun e => e.product)).Nodup ∧
    (∀ p : String,
      (∃ r ∈ store, r.product = p ∧ (r.status = "SUCCESS" ∨ r.status = "FAILED")) ↔
      (∃ e ∈ queryFailureRates store, e.product = p)) ∧
    (∀ e ∈ queryFailureRates store,
      e.failure_rate = roundTo 1 ((failedCount store e.product : ℚ) /
        ((successCount store e.product : ℚ) + (failedCount store e.product : ℚ)) * 100)) ∧
    (∀ st : AnalyticsState,
      getFailureRates (precomputeFromStore store st) = queryFailureRates store) := by
  have htrans : ∀ a b c : FailureRateEntry,
      failureRateLE a b → failureRateLE b c → failureRateLE a c := by
    intro a b c hab hbc
    rw [failureRateLE_iff] at *
    exact le_trans hbc hab
  have htotal : ∀ a b : FailureRateEntry,
      (failureRateLE a b || failureRateLE b a) = true := by
    intro a b
    simp only [Bool.or_eq_true, failureRateLE_iff]
    exact le_total _ _
  have hdef : queryFailureRates store =
      List.mergeSort
        (((store.filter (fun r => r.status = "SUCCESS" || r.status = "FAILED")).map
          (fun r => r.product)).dedup.map
          (failureRateEntry (store.filter
            (fun r => r.status = "SUCCESS" || r.status = "FAILED"))))
        failureRateLE := rfl
  refine ⟨?_, ?_, ?_, ?_, fun st => rfl⟩
  · rw [hdef]
    exact (List.sorted_mergeSort htrans htotal _).imp
      (fun h => (failureRateLE_iff _ _).mp h)
  · rw [hdef, List.Perm.nodup_iff ((List.mergeSort_perm _ _).map _), List.map_map]
    have : ((fun e => e.product) ∘ failureRateEntry (store.filter
        (fun r => r.status = "SUCCESS" || r.status = "FAILED"))) = fun p => p := by
      funext p
      rfl
    rw [this]
    simpa using List.nodup_dedup _
  · intro p
    rw [hdef]
    constructor
    · rintro ⟨r, hr, hp, hsf⟩
      have hrow : r ∈ store.filter (fun r => r.status = "SUCCESS" || r.status = "FAILED") := by
        rw [List.mem_filter]
        refine ⟨hr, ?_⟩
        rcases hsf with h | h <;> simp [h]
      have hmem : p ∈ ((store.filter
          (fun r => r.status = "SUCCESS" || r.status = "FAILED")).map
            (fun r => r.product)).dedup :=
        List.mem_dedup.mpr (List.mem_map.mpr ⟨r, hrow, hp⟩)
      exact ⟨_, List.mem_mergeSort.mpr (List.mem_map_of_mem _ hmem), rfl⟩
    · rintro ⟨e, he, hep⟩
      obtain ⟨q, hq, hfn⟩ := List.mem_map.mp (List.mem_mergeSort.mp he)
      have hq' : q = p := by rw [← hep, ← hfn]; rfl
      subst hq'
      obtain ⟨r, hr, hrp⟩ := List.mem_map.mp (List.mem_dedup.mp hq)
      rw [List.mem_filter] at hr
      refine ⟨r, hr.1, hrp, ?_⟩
      have h2 := hr.2
      simp only [Bool.or_eq_true, decide_eq_true_eq] at h2
      exact h2
  · intro e he
    rw [hdef] at he
    obtain ⟨q, hq, hfn⟩ := List.mem_map.mp (List.mem_mergeSort.mp he)
    subst hfn
    show roundTo 1 _ = roundTo 1 _
    congr 1
    rw [div_mul_eq_mul_div]
    show (((store.filter (fun r => r.status = "SUCCESS" || r.status = "FAILED")).filter
        (fun r => r.product = q && r.status = "FAILED")).length : ℚ) * 100 /
      (((store.filter (fun r => r.status = "SUCCESS" || r.status = "FAILED")).filter
        (fun r => r.product = q)).length : ℚ) = _
    rw [filter_sf_failed, sf_filter_product_length]
    push_cast
    rfl

/-- Concrete instance of `queryFailureRates_spec`: one SUCCESS and one
FAILED POS row give a single entry with rate 50.0, and POS is represented
exactly because it has a SUCCESS-or-FAILED row. -/
theorem queryFailureRates_spec_witness :
    queryFailureRates [sampleRecord, failedSample] =
      [{ product := "POS", failure_rate := 50 }] ∧
    (∃ e ∈ queryFailureRates [sampleRecord, failedSample], e.product = "POS") := by
  refine ⟨by with_unfolding_all decide, ?_⟩
  exact ((queryFailureRates_spec [sampleRecord, failedSample]).2.2.1 "POS").mp
    ⟨sampleRecord, by simp, rfl, Or.inl rfl⟩

/-! ## Helper lemmas: top merchant -/

/-- `topMerchantLE` read back as a proposition. -/
theorem topMerchantLE_iff (a b : String × ℚ) :
    topMerchantLE a b = true ↔ (b.2 < a.2 ∨ (a.2 = b.2 ∧ a.1 ≤ b.1)) := by
  simp [topMerchantLE]

/-- `topMerchantLE` is transitive. -/
theorem topMerchantLE_trans (a b c : String × ℚ)
    (hab : topMerchantLE a b) (hbc : topMerchantLE b c) : topMerchantLE a c := by
  rw [topMerchantLE_iff] at *
  rcases hab with h1 | ⟨h1e, h1le⟩ <;> rcases hbc with h2 | ⟨h2e, h2le⟩
  · exact Or.inl (lt_trans h2 h1)
  · exact Or.inl (h2e ▸ h1)
  · exact Or.inl (by rw [h1e]; exact h2)
  · exact Or.inr ⟨h1e.trans h2e, le_trans h1le h2le⟩

/-- `topMerchantLE` is total. -/
theorem topMerchantLE_total (a b : String × ℚ) :
    (topMerchantLE a b || topMerchantLE b a) = true := by
  simp only [Bool.or_eq_true, topMerchantLE_iff]
  rcases lt_trichotomy a.2 b.2 with h | h | h
  · exact Or.inr (Or.inl h)
  · rcases le_total a.1 b.1 with hle | hle
    · exact Or.inl (Or.inr ⟨h, hle⟩)
    · exact Or.inr (Or.inr ⟨h.symm, hle⟩)
  · exact Or.inl (Or.inl h)

/-- An integer shifted by one half floors to that integer. -/
theorem roundHalfAwayZ_intCast (n : ℤ) : roundHalfAwayZ (n : ℚ) = n := by
  unfold roundHalfAwayZ
  split
  · have h1 : -(n : ℚ) + 1 / 2 = ((-n : ℤ) : ℚ) + 1 / 2 := by push_cast; ring
    have h2 : ⌊((-n : ℤ) : ℚ) + 1 / 2⌋ = -n + ⌊(1 / 2 : ℚ)⌋ := Int.floor_int_add _ _
    have h3 : ⌊(1 / 2 : ℚ)⌋ = 0 := by norm_num
    rw [h1, h2, h3]
    omega
  · have h1 : (n : ℚ) + 1 / 2 = 1 / 2 + (n : ℤ) := by push_cast; ring
    have h2 : ⌊(1 / 2 : ℚ) + (n : ℤ)⌋ = ⌊(1 / 2 : ℚ)⌋ + n := Int.floor_add_int _ _
    have h3 : ⌊(1 / 2 : ℚ)⌋ = 0 := by norm_num
    rw [h1, h2, h3]
    omega

/-- SQL `ROUND(x, 2)` is the identity on amounts already quantised to whole
cents — in particular on any sum the `decimal(18,2)` column can produce. -/
theorem roundTo_centQuantized (x : ℚ) (h : CentQuantized x) : roundTo 2 x = x := by
  obtain ⟨n, rfl⟩ := h
  unfold roundTo
  have h1 : ((n : ℚ) / 100) * 10 ^ 2 = (n : ℚ) := by
    rw [show ((10 : ℚ) ^ 2) = 100 by norm_num]
    exact div_mul_cancel₀ _ (by norm_num)
  rw [h1, roundHalfAwayZ_intCast]
  norm_num

/-- A per-merchant SUCCESS volume over cent-quantised amounts is itself
cent-quantised. -/
theorem centQuantized_successVolume (store : Store)
    (hq : ∀ r ∈ store, CentQuantized r.amount) (m : String) :
    CentQuantized (successVolume store m) := by
  unfold successVolume
  have key : ∀ (l : List ActivityEntity), (∀ r ∈ l, CentQuantized r.amount) →
      ∀ (acc : ℚ), CentQuantized acc →
        CentQuantized (l.foldl (fun a r => a + r.amount) acc) := by
    intro l
    induction l with
    | nil => intro _ acc hacc; exact hacc
    | cons r t ih =>
      intro hl acc hacc
      apply ih (fun x hx => hl x (List.mem_cons_of_mem r hx))
      obtain ⟨n, hn⟩ := hacc
      obtain ⟨k, hk⟩ := hl r (List.mem_cons_self r t)
      exact ⟨n + k, by simp only [hn, hk]; push_cast; ring⟩
  apply key
  · intro r hr
    exact hq r (List.mem_filter.mp (List.mem_filter.mp hr).1).1
  · exact ⟨0, by norm_num⟩

/-- Claim C6: given the cent-quantisation the store's `decimal(18,2)` amount
column guarantees, `queryTopMerchant` is `null` exactly when the store has
no SUCCESS row; otherwise it returns a merchant that has a SUCCESS row,
whose reported total is the 2-decimal rounding of its SUCCESS `amount` sum,
such that every SUCCESS merchant's sum is at most the winner's and any
merchant tying the winning sum has a merchant id no smaller than the
winner's (tie-break ascending). -/
theorem queryTopMerchant_spec (store : Store)
    (hq : ∀ r ∈ store, CentQuantized r.amount) :
    (queryTopMerchant store = none ↔ ∀ r ∈ store, r.status ≠ "SUCCESS") ∧
    (∀ res, queryTopMerchant store = some res →
      (∃ r ∈ store, r.status = "SUCCESS" ∧ r.merchant_id = res.merchant_id) ∧
      res.total_volume = roundTo 2 (successVolume store res.merchant_id) ∧
      (∀ m, (∃ r ∈ store, r.status = "SUCCESS" ∧ r.merchant_id = m) →
        successVolume store m ≤ successVolume store res.merchant_id ∧
        (successVolume store m = successVolume store res.merchant_id →
          res.merchant_id ≤ m))) ∧
    (∀ st : AnalyticsState,
      getTopMerchant (precomputeFromStore store st) = queryTopMerchant store) := by
  have hround : ∀ m, roundTo 2 (successVolume store m) = successVolume store m :=
    fun m => roundTo_centQuantized _ (centQuantized_successVolume store hq m)
  have hmerch : ∀ m, m ∈ ((store.filter (fun r => r.status = "SUCCESS")).map
      (fun r => r.merchant_id)).dedup ↔
      (∃ r ∈ store, r.status = "SUCCESS" ∧ r.merchant_id = m) := by
    intro m
    rw [List.mem_dedup, List.mem_map]
    constructor
    · rintro ⟨r, hr, hrm⟩
      rw [List.mem_filter] at hr
      exact ⟨r, hr.1, by simpa using hr.2, hrm⟩
    · rintro ⟨r, hr, hs, hm⟩
      exact ⟨r, List.mem_filter.mpr ⟨hr, by simp [hs]⟩, hm⟩
  rcases hsort : List.mergeSort (((store.filter (fun r => r.status = "SUCCESS")).map
      (fun r => r.merchant_id)).dedup.map
      (fun m => (m, roundTo 2 (successVolume store m)))) topMerchantLE with _ | ⟨mv, tail⟩
  · have hnil : (((store.filter (fun r => r.status = "SUCCESS")).map
        (fun r => r.merchant_id)).dedup.map
        (fun m => (m, roundTo 2 (successVolume store m)))) = [] := by
      have hlen := congrArg List.length hsort
      rw [(List.mergeSort_perm _ _).length_eq] at hlen
      exact List.length_eq_zero.mp hlen
    have hnone : queryTopMerchant store = none := by
      simp only [queryTopMerchant]
      rw [hsort]
    refine ⟨⟨fun _ => ?_, fun _ => hnone⟩, fun res h => ?_, fun st => rfl⟩
    · intro r hr hs
      have hin := (hmerch r.merchant_id).mpr ⟨r, hr, hs, rfl⟩
      have hm0 : (((store.filter (fun r => r.status = "SUCCESS")).map
          (fun r => r.merchant_id)).dedup) = [] := by
        have := List.map_eq_nil.mp hnil
        exact this
      rw [hm0] at hin
      exact List.not_mem_nil _ hin
    · rw [hnone] at h
      exact absurd h (by simp)
  · have hsome : queryTopMerchant store =
        some { merchant_id := mv.1, total_volume := mv.2 } := by
      simp only [queryTopMerchant]
      rw [hsort]
    have hmem_iff : ∀ x : String × ℚ, x ∈ mv :: tail ↔
        x ∈ (((store.filter (fun r => r.status = "SUCCESS")).map
          (fun r => r.merchant_id)).dedup.map
          (fun m => (m, roundTo 2 (successVolume store m)))) := by
      intro x
      rw [← hsort, List.mem_mergeSort]
    obtain ⟨m0, hm0, hmveq⟩ :=
      List.mem_map.mp ((hmem_iff mv).mp (List.mem_cons_self _ _))
    have hpw := List.sorted_mergeSort topMerchantLE_trans topMerchantLE_total
      (((store.filter (fun r => r.status = "SUCCESS")).map
        (fun r => r.merchant_id)).dedup.map
        (fun m => (m, roundTo 2 (successVolume store m))))
    rw [hsort] at hpw
    have hhead : ∀ x ∈ tail, topMerchantLE mv x := (List.pairwise_cons.mp hpw).1
    have hv2 : mv.2 = successVolume store mv.1 := by
      rw [← hmveq]
      exact hround m0
    refine ⟨⟨fun h => ?_, fun hall => ?_⟩, fun res h => ?_, fun st => rfl⟩
    · rw [hsome] at h
      exact absurd h (by simp)
    · obtain ⟨r, hr, hs, _⟩ := (hmerch m0).mp hm0
      exact absurd hs (hall r hr)
    · rw [hsome] at h
      have hres : res = { merchant_id := mv.1, total_volume := mv.2 } := by
        injection h with h'
        exact h'.symm
      subst hres
      refine ⟨?_, ?_, ?_⟩
      · obtain ⟨r, hr, hs, hm⟩ := (hmerch m0).mp hm0
        refine ⟨r, hr, hs, ?_⟩
        rw [hm, ← hmveq]
      · show mv.2 = roundTo 2 (successVolume store mv.1)
        rw [hv2]
        exact (hround mv.1).symm
      · intro m hm
        have hmm : (m, roundTo 2 (successVolume store m)) ∈ mv :: tail :=
          (hmem_iff _).mpr (List.mem_map_of_mem _ ((hmerch m).mpr hm))
        rcases List.mem_cons.mp hmm with heq | htl
        · have hm1 : m = mv.1 := by rw [← heq]
          exact ⟨le_of_eq (congrArg (successVolume store) hm1), fun _ => hm1.ge⟩
        · have hle := hhead _ htl
          rw [topMerchantLE_iff] at hle
          rcases hle with hlt | ⟨heq2, hle1⟩
          · have hltv : successVolume store m < successVolume store mv.1 := by
              rw [← hround m, ← hv2]
              exact hlt
            exact ⟨le_of_lt hltv, fun habs => absurd habs (ne_of_lt hltv)⟩
          · have hveq : successVolume store mv.1 = successVolume store m := by
              rw [← hround m, ← hv2]
              exact heq2
            exact ⟨hveq.ge, fun _ => hle1⟩

set_option maxRecDepth 100000 in
/-- Concrete instance of `queryTopMerchant_spec`: a single 1500.00 SUCCESS
row makes its merchant the top merchant with the rounded total 1500.00. -/
theorem queryTopMerchant_spec_witness :
    queryTopMerchant [sampleRecord] =
      some { merchant_id := "MRC-123456", total_volume := 1500 } ∧
    (1500 : ℚ) = roundTo 2 (successVolume [sampleRecord] "MRC-123456") := by
  have hq : ∀ r ∈ [sampleRecord], CentQuantized r.amount := by
    intro r hr
    rw [List.mem_singleton] at hr
    subst hr
    exact ⟨150000, by norm_num [sampleRecord]⟩
  have hmain : queryTopMerchant [sampleRecord] =
      some { merchant_id := "MRC-123456", total_volume := 1500 } := by
    with_unfolding_all decide
  have h := (queryTopMerchant_spec [sampleRecord] hq).2.1 _ hmain
  exact ⟨hmain, by simpa using h.2.1⟩
